import Mathlib

/-!
Shallow embedding of the node-health-aware request router and the
opportunity pipeline of `TransactionMonitor.py`, the metrics aggregator,
and the alert cooldown of `monitor_errors.py` (`SystemMonitor`).
Python floats are modelled as rationals; wall-clock readings are passed
as explicit parameters.
-/

/-- One entry of `node_swarm['primary']`: url, connections, mempool_size
(`last_block` is never read by selection and is omitted from scoring). -/
structure PrimaryNode where
  url : String
  connections : Int
  mempool_size : Int
deriving DecidableEq, Repr

/-- One entry of `node_swarm['fast_nodes']`: url, connections,
mempool_size and the measured probe latency in seconds. -/
structure FastNode where
  url : String
  connections : Int
  mempool_size : Int
  latency : ℚ
deriving DecidableEq, Repr

/-- The `node_swarm` dictionary: the primary node and the fast nodes. -/
structure NodeSwarm where
  primary : PrimaryNode
  fast_nodes : List FastNode
deriving Repr

/-- Primary scoring from `_update_best_node`:
`connections * 0.4 + mempool_size * 0.6`. -/
def primary_score (p : PrimaryNode) : ℚ :=
  (p.connections : ℚ) * 0.4 + (p.mempool_size : ℚ) * 0.6

/-- Fast-node scoring from `_update_best_node`:
`connections * 0.3 + mempool_size * 0.5 + (1.0 - latency) * 0.2`. -/
def fast_score (n : FastNode) : ℚ :=
  (n.connections : ℚ) * 0.3 + (n.mempool_size : ℚ) * 0.5 + (1 - n.latency) * 0.2

/-- One iteration of the fast-node loop of `_update_best_node`: a node is
considered only when `connections > 0 and latency < 1.0`, and replaces the
running best exactly when its score is strictly greater (`float('-inf')`
is modelled by `none`). -/
def scoreStep (best : Option (ℚ × String)) (n : FastNode) : Option (ℚ × String) :=
  if 0 < n.connections ∧ n.latency < 1 then
    match best with
    | none => some (fast_score n, n.url)
    | some (bs, bu) => if bs < fast_score n then some (fast_score n, n.url) else some (bs, bu)
  else best

/-- `TransactionMonitor._update_best_node`: the primary is scored first
(only when `connections > 0`; its score always beats `float('-inf')`),
then each fast node in order; the url of the final best is returned
(`None` when nothing scored). -/
def update_best_node (s : NodeSwarm) : Option String :=
  let init : Option (ℚ × String) :=
    if 0 < s.primary.connections then some (primary_score s.primary, s.primary.url) else none
  (s.fast_nodes.foldl scoreStep init).map Prod.snd

/-- The 3-endpoint scenario of C1: primary (5 connections, backlog 100,
latency 50ms), secondary A (10, 50, 1500ms), secondary B (8, 80, 200ms).
Backlog is the `mempool_size` field; the primary's latency is not used
by the code's scoring. -/
def c1Swarm : NodeSwarm :=
  { primary := { url := "primary", connections := 5, mempool_size := 100 }
    fast_nodes :=
      [ { url := "A", connections := 10, mempool_size := 50, latency := 1.5 }
      , { url := "B", connections := 8, mempool_size := 80, latency := 0.2 } ] }

/-- The C1 scenario with the primary reporting zero connections, so that
only the fast-node loop contributes to the selection. -/
def c1SwarmUnhealthyPrimary : NodeSwarm :=
  { primary := { url := "primary", connections := 0, mempool_size := 100 }
    fast_nodes := c1Swarm.fast_nodes }

/-- A swarm where the primary reports zero connections and the only fast
node is excluded by the latency admission bound. -/
def c2Swarm : NodeSwarm :=
  { primary := { url := "primary", connections := 0, mempool_size := 100 }
    fast_nodes := [ { url := "A", connections := 10, mempool_size := 50, latency := 1.5 } ] }

/-- Fuel-indexed embedding of `TransactionMonitor.btc_rpc`. The network is
a map from url to optional response; `none` models a raised exception.
The effective url is `node_url or best_node or primary_url`. On failure,
when the failed url is not the primary, the code re-enters `btc_rpc` with
the primary url as explicit target; a failure at the primary re-raises.
The returned list is the sequence of urls attempted, in order. -/
def btc_rpc_fuel {ρ : Type} (net : String → Option ρ) (primary_url : String)
    (best_node : Option String) : Option String → Nat → List String × Option ρ
  | _, 0 => ([], none)
  | node_url, fuel + 1 =>
    let url := node_url.getD (best_node.getD primary_url)
    match net url with
    | some r => ([url], some r)
    | none =>
      if url = primary_url then ([url], none)
      else
        let rest := btc_rpc_fuel net primary_url best_node (some primary_url) fuel
        (url :: rest.1, rest.2)

/-- `TransactionMonitor.btc_rpc`: fuel 2 is exact, because the fallback
call always names the primary url and therefore never recurses again. -/
def btc_rpc {ρ : Type} (net : String → Option ρ) (primary_url : String)
    (best_node : Option String) (node_url : Option String) : List String × Option ρ :=
  btc_rpc_fuel net primary_url best_node node_url 2

/-- The seven opportunity categories of `MEV_SETTINGS['opportunity_types']`
and of the `performance_metrics['opportunity_types']` dictionary. -/
inductive OppType where
  | arbitrage
  | liquidation
  | sandwich
  | frontrun
  | backrun
  | just_in_time
  | time_bandit
deriving DecidableEq, Repr

/-- All seven categories, in the dictionary's order. -/
def OppType.all : List OppType :=
  [.arbitrage, .liquidation, .sandwich, .frontrun, .backrun, .just_in_time, .time_bandit]

/-- One per-category bucket `{'count': ..., 'profit': ...}`. -/
structure TypeMetrics where
  count : Nat
  profit : ℚ
deriving DecidableEq, Repr

/-- A queued opportunity record; the pipeline reads its `'type'` and
`'potential_profit'` fields. -/
structure Opportunity where
  type : OppType
  potential_profit : ℚ
deriving DecidableEq, Repr

/-- The `performance_metrics` dictionary of `TransactionMonitor`: global
totals, the two rolling sample buffers, and the per-category buckets. -/
structure PerformanceMetrics where
  opportunities_found : Nat
  total_profit : ℚ
  analysis_latency : List ℚ
  success_rate : List Nat
  opportunity_types : OppType → TypeMetrics

/-- The initial `performance_metrics` built in `__init__`: every counter
zero, every buffer empty. -/
def initialPerformanceMetrics : PerformanceMetrics :=
  { opportunities_found := 0
    total_profit := 0
    analysis_latency := []
    success_rate := []
    opportunity_types := fun _ => { count := 0, profit := 0 } }

/-- Sum of the per-category counts. -/
def sumCounts (m : PerformanceMetrics) : Nat :=
  (OppType.all.map fun t => (m.opportunity_types t).count).sum

/-- Sum of the per-category profits. -/
def sumProfits (m : PerformanceMetrics) : ℚ :=
  (OppType.all.map fun t => (m.opportunity_types t).profit).sum

/-- The metric update of `_analyze_pending_mev` when a completed analysis
future yields an opportunity: `opportunities_found += 1` and
`total_profit += opportunity['potential_profit']`; no per-category bucket
is touched there. -/
def record_found (m : PerformanceMetrics) (o : Opportunity) : PerformanceMetrics :=
  { m with
    opportunities_found := m.opportunities_found + 1
    total_profit := m.total_profit + o.potential_profit }

/-- Pointwise update of one category's bucket. -/
def bumpType (f : OppType → TypeMetrics) (t : OppType) (g : TypeMetrics → TypeMetrics) :
    OppType → TypeMetrics :=
  fun u => if u = t then g (f u) else f u

/-- `TransactionMonitor._execute_opportunity`. The per-category count is
incremented first; then the category handler runs (`handler o = none`
models the handler raising, which the enclosing `try/except` catches, so
nothing further is recorded). A returned profit > 0 adds to the category
profit and `total_profit` and appends a success sample 1; otherwise a
failure sample 0 is appended; either way the elapsed latency is appended.
`elapsed` stands for the wall-clock duration of the handler call. -/
def execute_opportunity (handler : Opportunity → Option ℚ) (elapsed : ℚ)
    (m : PerformanceMetrics) (o : Opportunity) : PerformanceMetrics :=
  let m1 := { m with
    opportunity_types := bumpType m.opportunity_types o.type
      (fun tm => { tm with count := tm.count + 1 }) }
  match handler o with
  | none => m1
  | some profit =>
    let m2 :=
      if 0 < profit then
        { m1 with
          opportunity_types := bumpType m1.opportunity_types o.type
            (fun tm => { tm with profit := tm.profit + profit })
          total_profit := m1.total_profit + profit
          success_rate := m1.success_rate ++ [1] }
      else { m1 with success_rate := m1.success_rate ++ [0] }
    { m2 with analysis_latency := m2.analysis_latency ++ [elapsed] }

/-- One worker of `_process_opportunity_queue` draining a sequence of
queued items in order: every item goes through `execute_opportunity`,
whose internal `try/except` makes it total, and the loop continues. -/
def process_items (handler : Opportunity → Option ℚ) (elapsed : ℚ)
    (m : PerformanceMetrics) (items : List Opportunity) : PerformanceMetrics :=
  items.foldl (execute_opportunity handler elapsed) m

/-- The fields `_update_performance_metrics` publishes to the telemetry
sink (`last_update`, a wall-clock echo, is omitted). -/
structure MetricsSnapshot where
  opportunities_found : Nat
  total_profit : ℚ
  avg_latency : ℚ
  success_rate : ℚ
  opportunities_per_hour : ℚ
deriving DecidableEq, Repr

/-- `TransactionMonitor._update_performance_metrics`. Publication and the
buffer reset run only under `len(analysis_latency) > 0`. When the success
buffer is empty, or the time window is zero, Python raises
ZeroDivisionError inside the `try`, which the `except` swallows before
the buffers are reset, so the state is left unchanged and nothing is
published. Otherwise the snapshot is published and only the two sample
buffers are cleared. `time_window` is `current_time -
performance_metrics['last_opportunity_time']`. -/
def update_performance_metrics (m : PerformanceMetrics) (time_window : ℚ) :
    PerformanceMetrics × Option MetricsSnapshot :=
  if 0 < m.analysis_latency.length then
    if m.success_rate.length = 0 ∨ time_window = 0 then (m, none)
    else
      ({ m with analysis_latency := [], success_rate := [] },
       some { opportunities_found := m.opportunities_found
              total_profit := m.total_profit
              avg_latency := m.analysis_latency.sum / (m.analysis_latency.length : ℚ)
              success_rate := (m.success_rate.sum : ℚ) / (m.success_rate.length : ℚ)
              opportunities_per_hour := (m.opportunities_found : ℚ) / (time_window / 3600) })
  else (m, none)

/-- Logical state of Python's `queue.Queue` (standard library), as used
for `opportunity_queue`: a FIFO list of items plus the `maxsize` bound.
Blocking is modelled by the absence of an immediate transition: an
operation that would block returns `none`. -/
structure BoundedQueue (α : Type) where
  items : List α
  maxsize : Nat
deriving DecidableEq, Repr

/-- `Queue.put`: with a positive `maxsize` and the queue full, the caller
blocks (`none`: the item is neither dropped nor stored past capacity);
otherwise the item is appended at the tail. -/
def BoundedQueue.put {α : Type} (q : BoundedQueue α) (a : α) : Option (BoundedQueue α) :=
  if 0 < q.maxsize ∧ q.maxsize ≤ q.items.length then none
  else some { q with items := q.items ++ [a] }

/-- `Queue.get`: an empty queue blocks (times out after 1s in
`_process_opportunity_queue`, modelled as `none`); otherwise the head,
the oldest item, is removed and returned. -/
def BoundedQueue.get {α : Type} (q : BoundedQueue α) : Option (α × BoundedQueue α) :=
  match q.items with
  | [] => none
  | a :: rest => some (a, { q with items := rest })

/-- The `opportunity_queue` built in `__init__`: `Queue(maxsize=1000)`. -/
def opportunity_queue : BoundedQueue Opportunity :=
  { items := [], maxsize := 1000 }

/-- The body of the `while True` loop of `start_monitoring`. A tick that
raises (`Except.error`) reaches the loop's `except` handler, whose body
is `LOGERROR`, then `redis_conn.rpush("faithswarm:errors", ...)`, then
`time.sleep(0.1)`. The `rpush` is itself a network call that can raise
(`sink e = Except.error ...`); an exception raised inside the `except`
block is not caught by the same `try` and there is no enclosing handler,
so it escapes the `while True` loop and terminates `start_monitoring` —
only when the push succeeds does the loop sleep 0.1s and resume from the
state the failed tick left observable. -/
def monitor_tick_result {σ ε : Type} (tick : σ → Except ε σ) (sink : ε → Except ε Unit)
    (s : σ) : Except ε σ :=
  match tick s with
  | Except.ok s2 => Except.ok s2
  | Except.error e =>
    match sink e with
    | Except.ok _ => Except.ok s
    | Except.error e2 => Except.error e2

/-- `start_monitoring` iterated for a given number of ticks: the loop has
no break or return, so an iteration whose guarded body completes is
followed by the next; an exception escaping the body (from the handler's
own `rpush`) terminates the loop with that error. -/
def start_monitoring_run {σ ε : Type} (tick : σ → Except ε σ) (sink : ε → Except ε Unit) :
    Nat → σ → Except ε σ
  | 0, s => Except.ok s
  | n + 1, s =>
    match monitor_tick_result tick sink s with
    | Except.ok s2 => start_monitoring_run tick sink n s2
    | Except.error e => Except.error e

/-- State of `SystemMonitor` (monitor_errors.py) relevant to alerting:
the cooldown and the `last_alert_time` dictionary, modelled as a map from
issue type to an optional timestamp. -/
structure SystemMonitorState where
  alert_cooldown : ℚ
  last_alert_time : String → Option ℚ

/-- The `SystemMonitor.__init__` alert state: `alert_cooldown = 300`
seconds, `last_alert_time = {}`. -/
def initialSystemMonitorState : SystemMonitorState :=
  { alert_cooldown := 300, last_alert_time := fun _ => none }

/-- `SystemMonitor.should_alert`: a missing issue type is first entered
with time 0; the alert fires only when strictly more than
`alert_cooldown` elapsed since the recorded time, and firing records the
current time for that type. -/
def should_alert (m : SystemMonitorState) (issue_type : String) (current_time : ℚ) :
    Bool × SystemMonitorState :=
  if m.alert_cooldown < current_time - (m.last_alert_time issue_type).getD 0 then
    (true, { m with last_alert_time :=
      fun t => if t = issue_type then some current_time else m.last_alert_time t })
  else
    (false, { m with last_alert_time :=
      fun t => if t = issue_type then some ((m.last_alert_time issue_type).getD 0)
               else m.last_alert_time t })

/-- A concrete detected opportunity: type arbitrage, potential profit
0.01. -/
def arbOpp : Opportunity :=
  { type := OppType.arbitrage, potential_profit := 1/100 }

/-- A metrics state with one latency sample and one success sample
pending, and nonzero cumulative totals. -/
def c6State : PerformanceMetrics :=
  { opportunities_found := 2
    total_profit := 5
    analysis_latency := [1/10]
    success_rate := [1]
    opportunity_types := fun _ => { count := 0, profit := 0 } }

theorem scoreStep_not_admissible (init : Option (ℚ × String)) (n : FastNode)
    (h : ¬(0 < n.connections ∧ n.latency < 1)) : scoreStep init n = init := by
  unfold scoreStep
  rw [if_neg h]

theorem foldl_scoreStep_skip (l : List FastNode) (init : Option (ℚ × String))
    (h : ∀ n ∈ l, ¬(0 < n.connections ∧ n.latency < 1)) :
    l.foldl scoreStep init = init := by
  induction l generalizing init with
  | nil => rfl
  | cons a l ih =>
    rw [List.foldl_cons, scoreStep_not_admissible _ _ (h a (List.mem_cons_self a l))]
    exact ih init (fun n hn => h n (List.mem_cons_of_mem a hn))

theorem foldl_scoreStep_mem (l : List FastNode) (init : Option (ℚ × String)) (p : ℚ × String)
    (h : l.foldl scoreStep init = some p) :
    init = some p ∨ ∃ n ∈ l, (0 < n.connections ∧ n.latency < 1) ∧ p.2 = n.url := by
  induction l generalizing init with
  | nil => left; simpa using h
  | cons a l ih =>
    rw [List.foldl_cons] at h
    rcases ih (scoreStep init a) h with h1 | ⟨n, hn, hadm, hu⟩
    · unfold scoreStep at h1
      by_cases ha : 0 < a.connections ∧ a.latency < 1
      · rw [if_pos ha] at h1
        cases init with
        | none =>
          right
          refine ⟨a, List.mem_cons_self a l, ha, ?_⟩
          cases h1
          rfl
        | some b =>
          rcases b with ⟨bs, bu⟩
          have h2 : (if bs < fast_score a then some (fast_score a, a.url)
              else some (bs, bu)) = some p := h1
          by_cases hlt : bs < fast_score a
          · rw [if_pos hlt] at h2
            right
            refine ⟨a, List.mem_cons_self a l, ha, ?_⟩
            cases h2
            rfl
          · rw [if_neg hlt] at h2
            left
            exact h2
      · rw [if_neg ha] at h1
        left
        exact h1
    · right
      exact ⟨n, List.mem_cons_of_mem a hn, hadm, hu⟩

/-- C1 (counterexample): on the 3-endpoint scenario the code selects the
primary, not secondary B. -/
theorem c1_counterexample :
    update_best_node c1Swarm ≠ some "B" ∧ update_best_node c1Swarm = some "primary" := by
  constructor
  · norm_num [update_best_node, scoreStep, primary_score, fast_score, c1Swarm]
    decide
  · norm_num [update_best_node, scoreStep, primary_score, fast_score, c1Swarm]

/-- C1 (amended): the primary wins (62 against B's 42.56); A is excluded
by the latency bound: with the primary unscored, B is selected even
though A has more raw connections. -/
theorem c1_best_node_scenario :
    update_best_node c1Swarm = some "primary" ∧
    update_best_node c1SwarmUnhealthyPrimary = some "B" := by
  constructor
  · norm_num [update_best_node, scoreStep, primary_score, fast_score, c1Swarm]
  · norm_num [update_best_node, scoreStep, primary_score, fast_score,
      c1SwarmUnhealthyPrimary, c1Swarm]

/-- C2 (counterexample): with the primary at zero connections and the only
fast node latency-excluded, the selection is none, not the primary. -/
theorem c2_counterexample :
    update_best_node c2Swarm ≠ some c2Swarm.primary.url ∧ update_best_node c2Swarm = none := by
  constructor
  · norm_num [update_best_node, scoreStep, primary_score, fast_score, c2Swarm]
    decide
  · norm_num [update_best_node, scoreStep, primary_score, fast_score, c2Swarm]

/-- C2 (amended): when every fast node is at or above the latency bound
and the primary reports at least one connection, the selection falls back
to the primary whatever the scores. -/
theorem c2_primary_fallback (s : NodeSwarm)
    (hp : 0 < s.primary.connections)
    (hl : ∀ n ∈ s.fast_nodes, 1 ≤ n.latency) :
    update_best_node s = some s.primary.url := by
  simp only [update_best_node]
  rw [if_pos hp, foldl_scoreStep_skip]
  · rfl
  · rintro n hn ⟨-, hlt⟩
    exact absurd hlt (not_lt.mpr (hl n hn))

theorem c2_primary_fallback_witness :
    0 < c1Swarm.primary.connections ∧
    (∀ n ∈ (NodeSwarm.mk c1Swarm.primary [FastNode.mk "A" 10 50 (3/2)]).fast_nodes,
      1 ≤ n.latency) ∧
    update_best_node (NodeSwarm.mk c1Swarm.primary [FastNode.mk "A" 10 50 (3/2)]) =
      some (NodeSwarm.mk c1Swarm.primary [FastNode.mk "A" 10 50 (3/2)]).primary.url := by
  refine ⟨by norm_num [c1Swarm], ?_, ?_⟩
  · intro n hn
    simp only [List.mem_singleton] at hn
    subst hn
    norm_num
  · exact c2_primary_fallback _ (by norm_num [c1Swarm])
      (by intro n hn; simp only [List.mem_singleton] at hn; subst hn; norm_num)

/-- C4: a fast node whose measured latency exceeds the one-second
admission bound is never selected, whatever its raw score; endpoints are
identified by their url, so the node's url is assumed to differ from the
primary's and every duplicate of it among the fast nodes also exceeds the
bound. -/
theorem c4_latency_admission_bound (s : NodeSwarm) (f : FastNode)
    (hf : f ∈ s.fast_nodes) (hlat : 1 < f.latency)
    (hp : f.url ≠ s.primary.url)
    (hdup : ∀ g ∈ s.fast_nodes, g.url = f.url → 1 < g.latency) :
    update_best_node s ≠ some f.url := by
  intro hbest
  simp only [update_best_node, Option.map_eq_some'] at hbest
  rcases hbest with ⟨p, hfold, hsnd⟩
  rcases foldl_scoreStep_mem _ _ _ hfold with hinit | ⟨n, hn, ⟨-, hltn⟩, hu⟩
  · by_cases hc : 0 < s.primary.connections
    · rw [if_pos hc] at hinit
      cases hinit
      exact hp hsnd.symm
    · rw [if_neg hc] at hinit
      exact Option.noConfusion hinit
  · have h1 : n.url = f.url := by rw [← hu, hsnd]
    exact absurd hltn (not_lt.mpr (le_of_lt (hdup n hn h1)))

theorem c4_latency_admission_bound_witness :
    (FastNode.mk "A" 10 50 (3/2) ∈ c1Swarm.fast_nodes) ∧
    (1 : ℚ) < 3/2 ∧
    update_best_node c1Swarm ≠ some "A" :=
  ⟨by norm_num [c1Swarm], by norm_num,
    c4_latency_admission_bound c1Swarm (FastNode.mk "A" 10 50 (3/2))
      (by norm_num [c1Swarm]) (by norm_num) (by decide)
      (by
        intro g hg hgu
        simp only [c1Swarm, List.mem_cons, List.mem_singleton] at hg
        rcases hg with hg | hg | hg
        · subst hg; norm_num
        · subst hg; simp at hgu
        · simp at hg)⟩

theorem flush_preserves_totals (m : PerformanceMetrics) (tw : ℚ) :
    (update_performance_metrics m tw).1.opportunities_found = m.opportunities_found ∧
    (update_performance_metrics m tw).1.total_profit = m.total_profit := by
  unfold update_performance_metrics
  by_cases h1 : 0 < m.analysis_latency.length
  · rw [if_pos h1]
    by_cases h2 : m.success_rate.length = 0 ∨ tw = 0
    · rw [if_pos h2]
      exact ⟨rfl, rfl⟩
    · rw [if_neg h2]
      exact ⟨rfl, rfl⟩
  · rw [if_neg h1]
    exact ⟨rfl, rfl⟩

theorem flush_snapshot_spec (m : PerformanceMetrics) (tw : ℚ) (snap : MetricsSnapshot)
    (h : (update_performance_metrics m tw).2 = some snap) :
    snap.opportunities_found = m.opportunities_found ∧
    snap.total_profit = m.total_profit ∧
    (update_performance_metrics m tw).1.analysis_latency = [] := by
  unfold update_performance_metrics at h ⊢
  by_cases h1 : 0 < m.analysis_latency.length
  · rw [if_pos h1] at h ⊢
    by_cases h2 : m.success_rate.length = 0 ∨ tw = 0
    · rw [if_pos h2] at h
      exact absurd h (by simp)
    · rw [if_neg h2] at h ⊢
      have h3 : some
          ({ opportunities_found := m.opportunities_found
             total_profit := m.total_profit
             avg_latency := m.analysis_latency.sum / (m.analysis_latency.length : ℚ)
             success_rate := (m.success_rate.sum : ℚ) / (m.success_rate.length : ℚ)
             opportunities_per_hour :=
               (m.opportunities_found : ℚ) / (tw / 3600) } : MetricsSnapshot) = some snap := h
      cases h3
      exact ⟨rfl, rfl, rfl⟩
  · rw [if_neg h1] at h
    exact absurd h (by simp)

theorem flush_noop_of_empty (m : PerformanceMetrics) (tw : ℚ)
    (h : m.analysis_latency = []) :
    update_performance_metrics m tw = (m, none) := by
  unfold update_performance_metrics
  rw [if_neg]
  simp [h]

/-- C6 (amended): flush never alters the cumulative totals; a flush that
publishes a snapshot carries exactly those totals in it and empties the
sample buffers, and a second flush with no intervening activity is a
no-op that publishes nothing. -/
theorem c6_flush_empty_delta (m : PerformanceMetrics) (tw tw2 : ℚ) :
    (update_performance_metrics m tw).1.opportunities_found = m.opportunities_found ∧
    (update_performance_metrics m tw).1.total_profit = m.total_profit ∧
    ∀ snap, (update_performance_metrics m tw).2 = some snap →
      snap.opportunities_found = m.opportunities_found ∧
      snap.total_profit = m.total_profit ∧
      update_performance_metrics (update_performance_metrics m tw).1 tw2 =
        ((update_performance_metrics m tw).1, none) := by
  refine ⟨(flush_preserves_totals m tw).1, (flush_preserves_totals m tw).2, ?_⟩
  intro snap hsnap
  rcases flush_snapshot_spec m tw snap hsnap with ⟨ha, hb, hc⟩
  exact ⟨ha, hb, flush_noop_of_empty _ tw2 hc⟩

/-- C6 (counterexample): flushing a state with one pending latency and
success sample publishes a snapshot, but the immediate second flush
publishes none at all, against the claim that it yields a snapshot. -/
theorem c6_counterexample :
    (update_performance_metrics c6State 1).2 ≠ none ∧
    (update_performance_metrics (update_performance_metrics c6State 1).1 1).2 = none := by
  constructor
  · simp [update_performance_metrics, c6State]
  · simp [update_performance_metrics, c6State]

/-- C3: a failing call whose effective target is not the primary is
retried exactly once against the primary — the attempt trace is the
two-element list, and the outcome is whatever the primary attempt
returns, so a second failure surfaces — while a failing call against the
primary itself surfaces immediately with no retry. -/
theorem c3_btc_rpc_single_retry {ρ : Type} (net : String → Option ρ)
    (primary_url target : String) (best_node : Option String)
    (hne : target ≠ primary_url) (hfail : net target = none) :
    btc_rpc net primary_url best_node (some target) =
      ([target, primary_url], net primary_url) ∧
    (net primary_url = none →
      btc_rpc net primary_url best_node (some primary_url) = ([primary_url], none)) := by
  constructor
  · cases hnp : net primary_url with
    | some r => simp [btc_rpc, btc_rpc_fuel, hfail, hne, hnp]
    | none => simp [btc_rpc, btc_rpc_fuel, hfail, hne, hnp]
  · intro hp
    simp [btc_rpc, btc_rpc_fuel, hp]

theorem c3_btc_rpc_single_retry_witness :
    ("fast" : String) ≠ "primary" ∧
    btc_rpc (fun _ : String => (none : Option Nat)) "primary" none (some "fast") =
      (["fast", "primary"], none) ∧
    btc_rpc (fun _ : String => (none : Option Nat)) "primary" none (some "primary") =
      (["primary"], none) := by
  have h := c3_btc_rpc_single_retry (fun _ : String => (none : Option Nat))
    "primary" "fast" none (by decide) rfl
  exact ⟨by decide, h.1, h.2 rfl⟩

/-- C5: after `_analyze_pending_mev` records one detected opportunity on
a fresh monitor, the global totals read 1 and 0.01 while every
per-category bucket is still zero: the sums across categories do not
equal the global totals at this snapshot boundary. -/
theorem c5_totals_mismatch :
    (record_found initialPerformanceMetrics arbOpp).opportunities_found = 1 ∧
    (record_found initialPerformanceMetrics arbOpp).total_profit = 1/100 ∧
    sumCounts (record_found initialPerformanceMetrics arbOpp) = 0 ∧
    sumProfits (record_found initialPerformanceMetrics arbOpp) = 0 := by
  refine ⟨rfl, ?_, rfl, ?_⟩
  · norm_num [record_found, initialPerformanceMetrics, arbOpp]
  · norm_num [sumProfits, record_found, initialPerformanceMetrics, arbOpp, OppType.all]

/-- C7 (counterexample): an item whose handler raises leaves the success
and latency sample buffers untouched — the item is not marked failed in
the metrics; only the per-category count, incremented before dispatch,
changes. -/
theorem c7_counterexample :
    (execute_opportunity (fun _ => none) 1 initialPerformanceMetrics arbOpp).success_rate
      = [] ∧
    (execute_opportunity (fun _ => none) 1 initialPerformanceMetrics arbOpp).analysis_latency
      = [] ∧
    (execute_opportunity (fun _ => none) 1 initialPerformanceMetrics arbOpp).opportunity_types
      OppType.arbitrage = { count := 1, profit := 0 } := by
  refine ⟨rfl, rfl, ?_⟩
  simp [execute_opportunity, bumpType, initialPerformanceMetrics, arbOpp]

/-- C7 (amended): a failing handler invocation is contained per item —
the worker folds on to the remaining items and the totals are untouched —
but the failing item is not marked failed: no success/failure sample and
no latency sample is recorded for it; only its category count, already
incremented before dispatch, changes. -/
theorem c7_worker_continues (handler : Opportunity → Option ℚ) (elapsed : ℚ)
    (m : PerformanceMetrics) (o : Opportunity) (rest : List Opportunity)
    (hfail : handler o = none) :
    process_items handler elapsed m (o :: rest) =
      process_items handler elapsed (execute_opportunity handler elapsed m o) rest ∧
    (execute_opportunity handler elapsed m o).success_rate = m.success_rate ∧
    (execute_opportunity handler elapsed m o).analysis_latency = m.analysis_latency ∧
    (execute_opportunity handler elapsed m o).total_profit = m.total_profit ∧
    ((execute_opportunity handler elapsed m o).opportunity_types o.type).count =
      (m.opportunity_types o.type).count + 1 := by
  refine ⟨rfl, ?_⟩
  unfold execute_opportunity
  rw [hfail]
  refine ⟨rfl, rfl, rfl, ?_⟩
  simp [bumpType]

theorem c7_worker_continues_witness :
    ((fun _ : Opportunity => (none : Option ℚ)) arbOpp = none) ∧
    (execute_opportunity (fun _ => none) 1 initialPerformanceMetrics arbOpp).success_rate =
      initialPerformanceMetrics.success_rate :=
  ⟨rfl, (c7_worker_continues (fun _ => none) 1 initialPerformanceMetrics arbOpp [] rfl).2.1⟩

/-- C8: the opportunity queue is created with capacity 1000 and is a
bounded FIFO: a put on a full queue blocks (no transition: the item is
neither dropped nor stored past capacity), a successful put appends at
the tail and preserves the bound, and get removes the head, the oldest
item, so a later-enqueued item is never returned before an earlier one. -/
theorem c8_queue_bounded_fifo :
    (opportunity_queue.maxsize = 1000 ∧ opportunity_queue.items = []) ∧
    (∀ (q : BoundedQueue Opportunity) (a : Opportunity),
      0 < q.maxsize → q.maxsize ≤ q.items.length → q.put a = none) ∧
    (∀ (q : BoundedQueue Opportunity) (a : Opportunity) (q1 : BoundedQueue Opportunity),
      q.put a = some q1 →
        q1.items = q.items ++ [a] ∧ q1.maxsize = q.maxsize ∧
        (0 < q.maxsize → q1.items.length ≤ q.maxsize)) ∧
    (∀ (q : BoundedQueue Opportunity) (a : Opportunity) (q1 : BoundedQueue Opportunity),
      q.get = some (a, q1) → q.items = a :: q1.items ∧ q1.maxsize = q.maxsize) := by
  refine ⟨⟨rfl, rfl⟩, ?_, ?_, ?_⟩
  · intro q a h1 h2
    unfold BoundedQueue.put
    rw [if_pos ⟨h1, h2⟩]
  · intro q a q1 h
    unfold BoundedQueue.put at h
    by_cases hc : 0 < q.maxsize ∧ q.maxsize ≤ q.items.length
    · rw [if_pos hc] at h
      exact absurd h (by simp)
    · rw [if_neg hc] at h
      have h2 : ({ q with items := q.items ++ [a] } : BoundedQueue Opportunity) = q1 :=
        Option.some.inj h
      refine ⟨by rw [← h2], by rw [← h2], ?_⟩
      intro hpos
      have hlen : q.items.length < q.maxsize := by
        by_contra hge
        exact hc ⟨hpos, le_of_not_lt hge⟩
      rw [← h2]
      simpa using hlen
  · intro q a q1 h
    unfold BoundedQueue.get at h
    cases hi : q.items with
    | nil => rw [hi] at h; exact absurd h (by simp)
    | cons b rest =>
      rw [hi] at h
      have h2 : (b, ({ q with items := rest } : BoundedQueue Opportunity)) = (a, q1) :=
        Option.some.inj h
      have hb : b = a := congrArg Prod.fst h2
      have hq : ({ q with items := rest } : BoundedQueue Opportunity) = q1 :=
        congrArg Prod.snd h2
      subst hb
      constructor
      · rw [← hq]
      · rw [← hq]

/-- C9 (counterexample): a tick error whose recording push to Redis also
raises terminates the control loop — with an always-failing tick and an
always-failing sink, a 3-iteration run from state 0 ends in the handler's
escaped error instead of completing its iterations. -/
theorem c9_counterexample :
    start_monitoring_run (fun _ : Nat => (Except.error 0 : Except Nat Nat))
      (fun _ : Nat => (Except.error 1 : Except Nat Unit)) 3 0 = Except.error 1 := rfl

/-- C9 (amended): an error raised during a monitoring tick is caught by
the loop's handler, and provided the handler's error-recording push to
Redis succeeds, the loop resumes the next iteration from the same state —
running n + 1 iterations equals running n more from the recovered state;
only an exception raised by the push itself can escape and terminate the
loop. -/
theorem c9_loop_error_containment {σ ε : Type} (tick : σ → Except ε σ)
    (sink : ε → Except ε Unit) (s : σ) (n : Nat) (e : ε)
    (herr : tick s = Except.error e) (hsink : sink e = Except.ok ()) :
    monitor_tick_result tick sink s = Except.ok s ∧
    start_monitoring_run tick sink (n + 1) s = start_monitoring_run tick sink n s := by
  have h1 : monitor_tick_result tick sink s = Except.ok s := by
    unfold monitor_tick_result
    rw [herr]
    show (match sink e with
      | Except.ok _ => Except.ok s
      | Except.error e2 => Except.error e2) = Except.ok s
    rw [hsink]
  refine ⟨h1, ?_⟩
  show (match monitor_tick_result tick sink s with
    | Except.ok s2 => start_monitoring_run tick sink n s2
    | Except.error e2 => Except.error e2) = start_monitoring_run tick sink n s
  rw [h1]

theorem c9_loop_error_containment_witness :
    ((fun _ : Nat => (Except.error 7 : Except Nat Nat)) 0 = Except.error 7) ∧
    ((fun _ : Nat => (Except.ok () : Except Nat Unit)) 7 = Except.ok ()) ∧
    start_monitoring_run (fun _ : Nat => (Except.error 7 : Except Nat Nat))
        (fun _ : Nat => (Except.ok () : Except Nat Unit)) 3 0 =
      start_monitoring_run (fun _ : Nat => (Except.error 7 : Except Nat Nat))
        (fun _ : Nat => (Except.ok () : Except Nat Unit)) 2 0 :=
  ⟨rfl, rfl, (c9_loop_error_containment (fun _ : Nat => (Except.error 7 : Except Nat Nat))
    (fun _ : Nat => (Except.ok () : Except Nat Unit)) 0 2 7 rfl rfl).2⟩

/-- C10: `should_alert` with the default 5-minute cooldown fires at most
once per cooldown window for a given issue type: a firing call records
its time for that type, a second call for the same type within the
cooldown returns false, and two firing calls are separated by strictly
more than the cooldown. -/
theorem c10_should_alert_cooldown (m : SystemMonitorState) (ty : String) (t1 t2 : ℚ)
    (h1 : (should_alert m ty t1).1 = true) :
    initialSystemMonitorState.alert_cooldown = 300 ∧
    (should_alert m ty t1).2.last_alert_time ty = some t1 ∧
    (t2 - t1 ≤ m.alert_cooldown →
      (should_alert (should_alert m ty t1).2 ty t2).1 = false) ∧
    ((should_alert (should_alert m ty t1).2 ty t2).1 = true →
      m.alert_cooldown < t2 - t1) := by
  by_cases hc : m.alert_cooldown < t1 - (m.last_alert_time ty).getD 0
  · have hm1 : (should_alert m ty t1).2 =
        { m with last_alert_time := fun t => if t = ty then some t1 else m.last_alert_time t } := by
      unfold should_alert
      rw [if_pos hc]
    have hfalse : ∀ hle : t2 - t1 ≤ m.alert_cooldown,
        (should_alert (should_alert m ty t1).2 ty t2).1 = false := by
      intro hle
      have hcond : ¬ m.alert_cooldown < t2 - t1 := not_lt.mpr hle
      rw [hm1]
      simp [should_alert, hcond]
    refine ⟨rfl, ?_, hfalse, ?_⟩
    · rw [hm1]
      simp
    · intro htrue
      by_contra hnlt
      push_neg at hnlt
      rw [hfalse hnlt] at htrue
      exact Bool.noConfusion htrue
  · exfalso
    unfold should_alert at h1
    rw [if_neg hc] at h1
    exact Bool.noConfusion h1

theorem c10_should_alert_cooldown_witness :
    (should_alert initialSystemMonitorState "high_cpu" 400).1 = true ∧
    ((500 : ℚ) - 400 ≤ initialSystemMonitorState.alert_cooldown) ∧
    (should_alert (should_alert initialSystemMonitorState "high_cpu" 400).2 "high_cpu" 500).1
      = false := by
  have h1 : (should_alert initialSystemMonitorState "high_cpu" 400).1 = true := by
    simp [should_alert, initialSystemMonitorState]
    norm_num
  have h2 : (500 : ℚ) - 400 ≤ initialSystemMonitorState.alert_cooldown := by
    norm_num [initialSystemMonitorState]
  exact ⟨h1, h2,
    (c10_should_alert_cooldown initialSystemMonitorState "high_cpu" 400 500 h1).2.2.1 h2⟩
